import Mathlib

/-!
Verification of the incremental dependency-tracking core of the
webpack-streaming-task-plugin (src/index.js), shallowly embedded in Lean.

Modelling conventions:

* A webpack timestamp snapshot (`compilation.fileTimestamps`, a JS `Map` from
  absolute file path to last-modified time) is an association list
  `List (String × Nat)`.  A stored value `0` models any falsy stored
  timestamp (`0`, `null`, `undefined`): the plugin only reads stored values
  through JavaScript's falsy-coalescing `||` and through `<`, under which
  `0`, `null` and `undefined` (after the coalescing, which removes them)
  behave identically.
* `plugin.prevTimestamps` is `null` or a snapshot: `Option Snapshot`.
* Directory paths handed to `watchDependencyDirectories` are produced by
  `path.resolve` followed by `path.dirname`, hence are normalized absolute
  paths; they are modelled as their segment lists (`List String`).  For such
  paths, Node's `path.relative(parent, child)` is non-empty, does not start
  with `..` and is not absolute exactly when `parent` is a strict segment
  prefix of `child`.
* The per-cycle `afterEmit` handler is embedded as the pure function
  `runCycle`, which records the decisions the handler takes and the
  externally observable effects the claims are about: whether the task was
  invoked and on which file set, whether the skip notice was printed, how
  often the webpack completion `callback` was invoked, and the value of
  `plugin.prevTimestamps` after the cycle settles.  Glob expansion
  (`globby(source)` / `vfs.src(source)`, both of which expand the same
  patterns against the same per-cycle filesystem) is an explicit parameter
  `resolve`.
-/

namespace StreamingTaskPlugin

/-- A webpack file-timestamp snapshot: association list from absolute file
path to last-modified time.  A value `0` models a falsy stored timestamp. -/
abbrev Snapshot := List (String × Nat)

/-- Lookup on a JS `Map` modelled as an association list (`m.get(p)`):
the first entry with the given key, if any. -/
def jsGet (m : Snapshot) (p : String) : Option Nat :=
  (m.find? (fun e => e.1 == p)).map (fun e => e.2)

/-- Values a JS property read can produce where the plugin expects a number:
a number, or `undefined` (reading a property the object does not have). -/
inductive JSVal where
  | undefined
  | num (n : Nat)
deriving DecidableEq

/-- JavaScript `<` between such a value and a number literal: `undefined`
converts to `NaN` and every comparison with `NaN` is false. -/
def JSVal.ltNat : JSVal → Nat → Bool
  | .undefined, _ => false
  | .num a, k => decide (a < k)

/-- Reading `.length` on the snapshot: `prevTimestamps` is a JS `Map`
(`compilation.fileTimestamps`), and `Map` has a `size` property but no
`length` property, so `this.prevTimestamps.length` evaluates to
`undefined` whatever the snapshot holds. -/
def mapLength (_ : Snapshot) : JSVal := JSVal.undefined

/-- src/index.js lines 414-416: `noPreviousTimestamps` is
`this.prevTimestamps === null || this.prevTimestamps.length < 1`. -/
def noPreviousTimestamps (prevTimestamps : Option Snapshot) : Bool :=
  match prevTimestamps with
  | none => true
  | some m => JSVal.ltNat (mapLength m) 1

/-- src/index.js lines 333-338, the IIFE computing `prevTime` inside
`getChangedFiles`: `plugin.startTime` when `prevTimestamps` is null,
otherwise `prevTimestamps.get(filepath) || plugin.startTime` — the `||`
falls back both when the map has no entry (`undefined`) and when the
stored value is falsy (modelled by `0`). -/
def prevTimeOf (prevTimestamps : Option Snapshot) (startTime : Nat) (filepath : String) : Nat :=
  match prevTimestamps with
  | none => startTime
  | some prev =>
    match jsGet prev filepath with
    | none => startTime
    | some t => if t = 0 then startTime else t

/-- src/index.js lines 330-343, `getChangedFiles`: iterate the keys of
`compilation.fileTimestamps`, keep a path iff `prevTime < newTime` where
`newTime = compilation.fileTimestamps.get(filepath) || Infinity` — a falsy
current value (modelled by `0`) or a missing one becomes `Infinity`, which
is strictly above every number, so the comparison is then true. -/
def getChangedFiles (fileTimestamps : Snapshot) (prevTimestamps : Option Snapshot)
    (startTime : Nat) : List String :=
  (fileTimestamps.map (fun e => e.1)).filter (fun filepath =>
    let prevTime := prevTimeOf prevTimestamps startTime filepath
    match jsGet fileTimestamps filepath with
    | none => true
    | some t => if t = 0 then true else decide (prevTime < t))

/-- src/index.js lines 353-357, `getChangedDependencies`: the changed files
that are also dependency files. -/
def getChangedDependencies (dependencyFiles changedFiles : List String) : List String :=
  changedFiles.filter (fun filepath => dependencyFiles.contains filepath)

/-- A normalized absolute directory path, as its list of segments. -/
abbrev Dir := List String

/-- src/index.js lines 64-67, `isDirectorySubdirectory(child, parent)`:
`path.relative(parent, child)` is truthy, does not start with `..` and is
not absolute.  For the normalized absolute paths the plugin passes in,
that holds exactly when `parent` is a strict prefix of `child`'s
segments. -/
def isDirectorySubdirectory (child parent : Dir) : Bool :=
  decide (parent <+: child) && !(decide (parent = child))

/-- Adding to a JS `Set` (`compilation.contextDependencies.add`): a no-op
when the element is present, otherwise appended in insertion order. -/
def setAdd (s : List Dir) (d : Dir) : List Dir :=
  if d ∈ s then s else s ++ [d]

/-- src/index.js lines 288-323, `watchDependencyDirectories`: first filter
the candidates against the registry as it is when the call starts (drop a
candidate already present, or one that is a subdirectory of a registered
directory), then for each surviving candidate in order delete every
registered directory that is a subdirectory of it and add it. -/
def watchDependencyDirectories (contextDependencies : List Dir) (dependencyDirs : List Dir) :
    List Dir :=
  let kept := dependencyDirs.filter (fun directoryPath =>
    !(decide (directoryPath ∈ contextDependencies)) &&
    !(contextDependencies.any (fun parentPath => isDirectorySubdirectory directoryPath parentPath)))
  kept.foldl
    (fun registry directoryPath =>
      setAdd (registry.filter (fun compilationPath =>
        !(isDirectorySubdirectory compilationPath directoryPath))) directoryPath)
    contextDependencies

/-- The "no nested watch directories" invariant of the claim: the registry
never holds two entries with one a strict subdirectory of the other. -/
def NoNesting (registry : List Dir) : Prop :=
  ∀ x ∈ registry, ∀ y ∈ registry, isDirectorySubdirectory x y = false

instance : DecidablePred NoNesting := fun _ =>
  inferInstanceAs (Decidable (∀ _ ∈ _, ∀ _ ∈ _, _ = false))

/-- src/index.js lines 89-91: the counting loops
`for (c = 0; remaining >= step; remaining -= step) c++` of
`getDurationString`, returning the count and the remaining duration. -/
def subLoop (step remaining : Nat) : Nat × Nat :=
  if h : 0 < step ∧ step ≤ remaining then
    let rest := subLoop step (remaining - step)
    (rest.1 + 1, rest.2)
  else
    (0, remaining)
termination_by remaining
decreasing_by omega

/-- src/index.js lines 76-103, `getDurationString`: decompose the duration
by the three counting loops, then build the output through the five
truthiness-guarded appends of lines 96-100. -/
def getDurationString (duration : Nat) : String :=
  let hoursPair := subLoop 3600000 duration
  let hours := hoursPair.1
  let minutesPair := subLoop 60000 hoursPair.2
  let minutes := minutesPair.1
  let secondsPair := subLoop 1000 minutesPair.2
  let seconds := secondsPair.1
  let ms := secondsPair.2
  let out1 := if hours ≠ 0 then s!"{hours}h " else ""
  let out2 := out1 ++ (if hours ≠ 0 ∨ minutes ≠ 0 then s!"{minutes}m " else "")
  let out3 := out2 ++ (if hours ≠ 0 ∨ minutes ≠ 0 ∨ seconds ≠ 0 then s!"{seconds}s" else "")
  let out4 := out3 ++ (if minutes = 0 ∧ seconds ≠ 0 ∧ ms ≠ 0 then " " else "")
  out4 ++ (if minutes = 0 ∧ ms ≠ 0 then s!"{ms}ms" else "")

/-- Rendering rule in the words of the claim (C8): hours, minutes, seconds,
milliseconds from division and successive remainders; render the hour part
iff hours>0, the minute part iff hours>0 or minutes>0, the second part iff
hours>0 or minutes>0 or seconds>0, and the millisecond part, preceded by a
space iff seconds>0, iff minutes=0 and ms>0. -/
def durationRender (n : Nat) : String :=
  let hours := n / 3600000
  let minutes := n % 3600000 / 60000
  let seconds := n % 3600000 % 60000 / 1000
  let ms := n % 3600000 % 60000 % 1000
  (if 0 < hours then s!"{hours}h " else "")
    ++ (if 0 < hours ∨ 0 < minutes then s!"{minutes}m " else "")
    ++ (if 0 < hours ∨ 0 < minutes ∨ 0 < seconds then s!"{seconds}s" else "")
    ++ (if minutes = 0 ∧ 0 < ms then (if 0 < seconds then " " else "") ++ s!"{ms}ms" else "")

/-- Per-instance plugin state read by a cycle: `this.startTime` (captured at
construction) and `this.prevTimestamps` (initially `null`). -/
structure PluginState where
  startTime : Nat
  prevTimestamps : Option Snapshot

/-- Everything one `afterEmit` invocation reads from the options object and
from the compiler/compilation: `source` is `none` when the option is falsy;
`taskState` is `none` when the `task` option is falsy and otherwise records
whether it is a function; `always` and `watchSourceDirectories` keep their
`undefined`-or-boolean shape; `resolve` stands for glob expansion against
this cycle's filesystem; `taskSucceeded` is whether the task's stream (with
its destination write) settles without error. -/
structure CycleInput where
  source : Option (List String)
  taskState : Option Bool
  always : Option Bool
  alwaysRun : Bool
  skipInitialRun : Bool
  changedFilesOnly : Bool
  watchMode : Bool
  fileTimestamps : Snapshot
  resolve : List String → List String
  taskSucceeded : Bool

/-- The observable outcome of one `afterEmit` invocation. -/
structure CycleResult where
  valid : Bool
  noPreviousTimestamps : Bool
  shouldSkip : Bool
  shouldAlwaysRun : Bool
  dependencyFiles : List String
  changedFiles : List String
  changedDependencies : List String
  taskFileHasChanged : Bool
  taskRan : Bool
  taskInput : Option (List String)
  skipNoticeEmitted : Bool
  callbackCount : Nat
  prevTimestampsAfter : Option Snapshot

/-- src/index.js lines 171-490, the `afterEmit` handler of one build cycle.

* Validation (lines 406-411): with a falsy `source` or `task`, or a
  non-function `task`, the handler warns, calls `callback()` once and
  returns; nothing else happens.
* Lines 413-447: `noPreviousTimestamps`, `shouldSkip`, the dependency
  files (`globby(source)` resolved), `shouldAlwaysRun` (the deprecated
  `always` wins when defined), the changed files and dependencies.
* Line 449-452: the skip notice is printed iff `shouldSkip`.
* Line 453: the task is invoked iff
  `(noPreviousTimestamps || taskFileHasChanged || shouldAlwaysRun) && !shouldSkip`.
* Lines 454-460: the stream source is `changedDependencies` when
  `taskFileHasChanged && changedFilesOnly`, else the `source` patterns,
  which `vfs.src` expands to the same resolved file set; `taskInput`
  records the resolved set fed to the task.
* Lines 462-487: when the task is invoked, `onTaskFinish` (success) calls
  `callback()`, while on failure both the `error` extension
  (`onTaskExecutionError`) and the settle callback (`onTaskResultError`)
  call it; the settle callback then assigns
  `plugin.prevTimestamps = compilation.fileTimestamps` whether or not
  there was an error.  When the task is not invoked, that assignment never
  runs.
* Line 489: `callback()` is invoked unconditionally at the end of the
  handler body, in addition to any of the invocations above. -/
def runCycle (st : PluginState) (inp : CycleInput) : CycleResult :=
  if inp.source.isSome && (inp.taskState == some true) then
    let src := inp.source.getD []
    let noPrev := noPreviousTimestamps st.prevTimestamps
    let shouldSkip := inp.watchMode && noPrev && inp.skipInitialRun
    let dependencyFiles := inp.resolve src
    let shouldAlwaysRun := inp.always.getD inp.alwaysRun
    let changedFiles := getChangedFiles inp.fileTimestamps st.prevTimestamps st.startTime
    let changedDependencies := getChangedDependencies dependencyFiles changedFiles
    let taskFileHasChanged := decide (0 < changedDependencies.length)
    let shouldRun := (noPrev || taskFileHasChanged || shouldAlwaysRun) && !shouldSkip
    { valid := true
      noPreviousTimestamps := noPrev
      shouldSkip := shouldSkip
      shouldAlwaysRun := shouldAlwaysRun
      dependencyFiles := dependencyFiles
      changedFiles := changedFiles
      changedDependencies := changedDependencies
      taskFileHasChanged := taskFileHasChanged
      taskRan := shouldRun
      taskInput :=
        if shouldRun then
          some (if taskFileHasChanged && inp.changedFilesOnly then changedDependencies
                else inp.resolve src)
        else none
      skipNoticeEmitted := shouldSkip
      callbackCount := if shouldRun then 1 + (if inp.taskSucceeded then 1 else 2) else 1
      prevTimestampsAfter := if shouldRun then some inp.fileTimestamps else st.prevTimestamps }
  else
    { valid := false
      noPreviousTimestamps := noPreviousTimestamps st.prevTimestamps
      shouldSkip := false
      shouldAlwaysRun := inp.always.getD inp.alwaysRun
      dependencyFiles := []
      changedFiles := []
      changedDependencies := []
      taskFileHasChanged := false
      taskRan := false
      taskInput := none
      skipNoticeEmitted := false
      callbackCount := 1
      prevTimestampsAfter := st.prevTimestamps }

/-- Previous time in the words of claim C4 as stated: the stored entry
whenever the snapshot exists and contains the path, else the start time. -/
def prevTimeClaim (prevTimestamps : Option Snapshot) (startTime : Nat) (p : String) : Nat :=
  match prevTimestamps with
  | none => startTime
  | some m => (jsGet m p).getD startTime

/-- New time in the words of claim C4 as stated: the stored current entry
when resolvable, else a sentinel above every real time. -/
def newTimeClaim (fileTimestamps : Snapshot) (p : String) : WithTop Nat :=
  match jsGet fileTimestamps p with
  | none => ⊤
  | some t => (t : WithTop Nat)

/-- The change detector in the words of claim C4 as stated: the keys of the
current snapshot whose `prevTimeClaim` is strictly below their
`newTimeClaim`. -/
def changedSinceClaim (fileTimestamps : Snapshot) (prevTimestamps : Option Snapshot)
    (startTime : Nat) : List String :=
  (fileTimestamps.map (fun e => e.1)).filter (fun p =>
    decide ((prevTimeClaim prevTimestamps startTime p : WithTop Nat) < newTimeClaim fileTimestamps p))

/-- Previous time as the amended claim C4 states it: the stored entry only
when the snapshot exists and contains the path with a truthy (nonzero)
value, else the start time. -/
def prevTimeAmended (prevTimestamps : Option Snapshot) (startTime : Nat) (p : String) : Nat :=
  match prevTimestamps with
  | none => startTime
  | some m =>
    match jsGet m p with
    | none => startTime
    | some t => if t = 0 then startTime else t

/-- New time as the amended claim C4 states it: the stored current entry
when it is truthy (nonzero), else the sentinel. -/
def newTimeAmended (fileTimestamps : Snapshot) (p : String) : WithTop Nat :=
  match jsGet fileTimestamps p with
  | none => ⊤
  | some t => if t = 0 then ⊤ else (t : WithTop Nat)

/-- Glob-expansion fixture: the `source` patterns match two files. -/
def twoFileResolve : List String → List String :=
  fun _ => ["/proj/a.txt", "/proj/b.txt"]

/-- Plugin state before any cycle has run: `prevTimestamps` is null. -/
def firstCycleState : PluginState :=
  { startTime := 1, prevTimestamps := none }

/-- Plugin state after a cycle saved a snapshot of both files. -/
def steadyState : PluginState :=
  { startTime := 1, prevTimestamps := some [("/proj/a.txt", 5), ("/proj/b.txt", 5)] }

/-- Valid options with watch mode active and both `watchMode.skipInitialRun`
and `watchMode.alwaysRun` set. -/
def skipScenarioInput : CycleInput :=
  { source := some ["src/*.txt"]
    taskState := some true
    always := none
    alwaysRun := true
    skipInitialRun := true
    changedFilesOnly := false
    watchMode := true
    fileTimestamps := [("/proj/a.txt", 5), ("/proj/b.txt", 5)]
    resolve := twoFileResolve
    taskSucceeded := true }

/-- Valid options, watch mode off, no watch flags: a plain first build. -/
def firstRunInput : CycleInput :=
  { skipScenarioInput with watchMode := false, skipInitialRun := false, alwaysRun := false }

/-- The same plain build, but the task's stream settles with an error. -/
def failingRunInput : CycleInput :=
  { firstRunInput with taskSucceeded := false }

/-- Options whose `task` option is missing: validation fails. -/
def invalidInput : CycleInput :=
  { firstRunInput with taskState := none }

/-- Steady-state watch cycle where only `/proj/a.txt` changed and
`watchMode.changedFilesOnly` is on. -/
def changedOnlyInput : CycleInput :=
  { firstRunInput with
      changedFilesOnly := true
      fileTimestamps := [("/proj/a.txt", 9), ("/proj/b.txt", 5)] }

/-! ## Helper lemmas -/

/-- The counting loop computes division with remainder. -/
theorem subLoop_eq (step : Nat) (hs : 0 < step) :
    ∀ n, subLoop step n = (n / step, n % step) := by
  intro n
  induction n using Nat.strong_induction_on with
  | _ n ih =>
    rw [subLoop]
    split
    next h =>
      have hrec := ih (n - step) (by omega)
      simp only [hrec]
      rw [Nat.div_eq n step, Nat.mod_eq n step, if_pos h, if_pos h]
    next h =>
      rw [Nat.div_eq n step, Nat.mod_eq n step, if_neg h, if_neg h]

/-- The source's duration formatter renders exactly the rule of the claim. -/
theorem getDurationString_eq_render (n : Nat) : getDurationString n = durationRender n := by
  unfold getDurationString durationRender
  simp only [subLoop_eq 3600000 (by norm_num), subLoop_eq 60000 (by norm_num),
    subLoop_eq 1000 (by norm_num)]
  by_cases h1 : n / 3600000 = 0 <;>
    by_cases h2 : n % 3600000 / 60000 = 0 <;>
      by_cases h3 : n % 3600000 % 60000 / 1000 = 0 <;>
        by_cases h4 : n % 3600000 % 60000 % 1000 = 0 <;>
          simp [h1, h2, h3, h4, Nat.pos_iff_ne_zero, String.append_assoc,
            String.append_empty, String.empty_append]

/-- A successful map lookup means the key is among the snapshot's keys. -/
theorem jsGet_mem {m : Snapshot} {p : String} {t : Nat} (h : jsGet m p = some t) :
    p ∈ m.map (fun e => e.1) := by
  unfold jsGet at h
  rcases hf : m.find? (fun e => e.1 == p) with _ | e
  · rw [hf] at h; simp at h
  · have he := List.find?_some hf
    have hmem : e ∈ m := List.mem_of_find?_eq_some hf
    have hep : e.1 = p := by simpa using he
    exact hep ▸ List.mem_map_of_mem (fun x => x.1) hmem

/-- The amended previous-time rule is exactly the code's `prevTime`. -/
theorem prevTimeAmended_eq : prevTimeAmended = prevTimeOf := rfl

/-- Membership in the change detector's output, characterized by the amended
previous/new-time rules. -/
theorem mem_getChangedFiles (fileTimestamps : Snapshot) (prevTimestamps : Option Snapshot)
    (startTime : Nat) (p : String) :
    p ∈ getChangedFiles fileTimestamps prevTimestamps startTime ↔
      p ∈ fileTimestamps.map (fun e => e.1) ∧
        (prevTimeAmended prevTimestamps startTime p : WithTop Nat) <
          newTimeAmended fileTimestamps p := by
  unfold getChangedFiles
  rw [List.mem_filter]
  refine and_congr_right fun _ => ?_
  show (match jsGet fileTimestamps p with
      | none => true
      | some t => if t = 0 then true else decide (prevTimeOf prevTimestamps startTime p < t)) =
        true ↔ _
  unfold newTimeAmended
  rw [prevTimeAmended_eq]
  rcases hg : jsGet fileTimestamps p with _ | t
  · simp
  · by_cases ht : t = 0
    · subst ht
      simp
    · simp [ht, WithTop.coe_lt_coe]

/-- Membership in a JS-set add. -/
theorem mem_setAdd {s : List Dir} {d x : Dir} : x ∈ setAdd s d ↔ x ∈ s ∨ x = d := by
  unfold setAdd
  split
  next hd =>
    constructor
    · exact fun h => Or.inl h
    · rintro (h | rfl) <;> assumption
  next => simp

/-- Registering a single directory, unfolded. -/
theorem watchDependencyDirectories_singleton (R : List Dir) (d : Dir) :
    watchDependencyDirectories R [d] =
      if (!(decide (d ∈ R)) &&
          !(R.any (fun parentPath => isDirectorySubdirectory d parentPath))) = true
      then setAdd (R.filter (fun compilationPath =>
        !(isDirectorySubdirectory compilationPath d))) d
      else R := by
  unfold watchDependencyDirectories
  split
  next hc => simp [List.filter_cons, hc]
  next hc => simp [List.filter_cons, hc]

/-- A directory is never its own subdirectory. -/
theorem isDirectorySubdirectory_self (d : Dir) : isDirectorySubdirectory d d = false := by
  simp [isDirectorySubdirectory]

/-- Registering one directory preserves the no-nested-directories invariant. -/
theorem noNesting_preserved (R : List Dir) (d : Dir) (h : NoNesting R) :
    NoNesting (watchDependencyDirectories R [d]) := by
  rw [watchDependencyDirectories_singleton]
  split
  next hc =>
    rw [Bool.and_eq_true, Bool.not_eq_true', Bool.not_eq_true'] at hc
    obtain ⟨hc1, hc2⟩ := hc
    rw [decide_eq_false_iff_not] at hc1
    rw [List.any_eq_false] at hc2
    intro x hx y hy
    rw [mem_setAdd] at hx hy
    rcases hx with hx | rfl
    · obtain ⟨hxR, hxd⟩ := List.mem_filter.mp hx
      rcases hy with hy | rfl
      · exact h x hxR y (List.mem_filter.mp hy).1
      · simpa using hxd
    · rcases hy with hy | rfl
      · have := hc2 y (List.mem_filter.mp hy).1
        simpa using this
      · exact isDirectorySubdirectory_self _
  next => exact h

/-- Validity of a cycle is exactly option validation. -/
theorem runCycle_valid_iff (st : PluginState) (inp : CycleInput) :
    (runCycle st inp).valid = (inp.source.isSome && (inp.taskState == some true)) := by
  unfold runCycle
  split <;> simp_all

/-! ## Claims -/

/-- C1: the claim says `prevTimestamps` is unconditionally replaced with the
cycle's snapshot after every cycle.  The code only assigns
`plugin.prevTimestamps` inside the task-invocation settle callback
(src/index.js line 486), so a cycle that skips the task leaves it
unchanged: in the skip-initial-run scenario the cycle completes (the
completion callback runs, the task is skipped) yet `prevTimestamps` is
still null afterwards — the plugin never leaves FIRST_CYCLE. -/
theorem C1_skipped_cycle_keeps_prevTimestamps :
    (runCycle firstCycleState skipScenarioInput).valid = true ∧
    (runCycle firstCycleState skipScenarioInput).callbackCount = 1 ∧
    (runCycle firstCycleState skipScenarioInput).taskRan = false ∧
    (runCycle firstCycleState skipScenarioInput).prevTimestampsAfter = none ∧
    (runCycle firstCycleState skipScenarioInput).prevTimestampsAfter ≠
      some skipScenarioInput.fileTimestamps ∧
    noPreviousTimestamps (runCycle firstCycleState skipScenarioInput).prevTimestampsAfter = true :=
  ⟨by decide, by decide, by decide, by decide, by decide, by decide⟩

/-- C2: on every validated cycle the task runs iff
`(noPreviousTimestamps || taskFileHasChanged || shouldAlwaysRun) && !shouldSkip`
with `shouldSkip = isWatchModeActive && noPreviousTimestamps && skipInitialRun`,
the skip notice being emitted exactly when `shouldSkip`; in the
skip-initial-run scenario (watch mode, no prior snapshot,
`skipInitialRun = true`, `alwaysRun = true`) the task does not run and the
skip notice is emitted. -/
theorem C2_run_decision :
    (∀ st inp, (runCycle st inp).valid = true →
      (runCycle st inp).shouldSkip
          = (inp.watchMode && (runCycle st inp).noPreviousTimestamps && inp.skipInitialRun) ∧
      (runCycle st inp).taskRan
          = (((runCycle st inp).noPreviousTimestamps || (runCycle st inp).taskFileHasChanged
              || (runCycle st inp).shouldAlwaysRun) && !(runCycle st inp).shouldSkip) ∧
      (runCycle st inp).skipNoticeEmitted = (runCycle st inp).shouldSkip) ∧
    ((runCycle firstCycleState skipScenarioInput).valid = true ∧
     skipScenarioInput.watchMode = true ∧ skipScenarioInput.skipInitialRun = true ∧
     skipScenarioInput.alwaysRun = true ∧
     (runCycle firstCycleState skipScenarioInput).noPreviousTimestamps = true ∧
     (runCycle firstCycleState skipScenarioInput).taskRan = false ∧
     (runCycle firstCycleState skipScenarioInput).skipNoticeEmitted = true) := by
  constructor
  · intro st inp hv
    rw [runCycle_valid_iff] at hv
    simp [runCycle, hv]
  · exact ⟨by decide, by decide, by decide, by decide, by decide, by decide, by decide⟩

/-- C2 witness: the decision equalities instantiated at a concrete valid
cycle. -/
theorem C2_run_decision_witness :
    (runCycle firstCycleState firstRunInput).valid = true ∧
    (runCycle firstCycleState firstRunInput).taskRan
        = (((runCycle firstCycleState firstRunInput).noPreviousTimestamps
            || (runCycle firstCycleState firstRunInput).taskFileHasChanged
            || (runCycle firstCycleState firstRunInput).shouldAlwaysRun)
          && !(runCycle firstCycleState firstRunInput).shouldSkip) :=
  ⟨by decide, (C2_run_decision.1 firstCycleState firstRunInput (by decide)).2.1⟩

/-- C3: the claim says the completion callback is invoked exactly once per
cycle for every outcome.  The code invokes `callback()` unconditionally at
the end of the handler (src/index.js line 489) *and* from
`onTaskFinish`/`onTaskExecutionError`/`onTaskResultError`, so a cycle that
runs the task invokes it twice on success and three times on failure;
only validation-failure and no-run cycles invoke it exactly once. -/
theorem C3_callback_invocations :
    (runCycle firstCycleState invalidInput).valid = false ∧
    (runCycle firstCycleState invalidInput).callbackCount = 1 ∧
    (runCycle firstCycleState skipScenarioInput).taskRan = false ∧
    (runCycle firstCycleState skipScenarioInput).callbackCount = 1 ∧
    (runCycle firstCycleState firstRunInput).taskRan = true ∧
    firstRunInput.taskSucceeded = true ∧
    (runCycle firstCycleState firstRunInput).callbackCount = 2 ∧
    (runCycle firstCycleState failingRunInput).callbackCount = 3 :=
  ⟨by decide, by decide, by decide, by decide, by decide, by decide, by decide, by decide⟩

/-- C4 (amended): the change detector returns exactly the keys of
`currentTimestamps` with `prevTime < newTime`, where `prevTime` is the
stored previous entry only when it is truthy (nonzero) — else the run
start time — and `newTime` is the stored current entry only when truthy —
else the above-everything sentinel; and a file absent from the previous
snapshot whose current timestamp is strictly greater than the run start
time is reported as changed. -/
theorem C4_change_detector :
    (∀ fileTimestamps prevTimestamps startTime p,
        p ∈ getChangedFiles fileTimestamps prevTimestamps startTime ↔
          p ∈ fileTimestamps.map (fun e => e.1) ∧
            (prevTimeAmended prevTimestamps startTime p : WithTop Nat) <
              newTimeAmended fileTimestamps p) ∧
    (∀ fileTimestamps prevTimestamps startTime p t,
        (∀ m, prevTimestamps = some m → jsGet m p = none) →
        jsGet fileTimestamps p = some t → startTime < t →
        p ∈ getChangedFiles fileTimestamps prevTimestamps startTime) := by
  refine ⟨mem_getChangedFiles, ?_⟩
  intro cur prev start p t habs hcur hlt
  rw [mem_getChangedFiles]
  refine ⟨jsGet_mem hcur, ?_⟩
  have hpa : prevTimeAmended prev start p = start := by
    cases prev with
    | none => rfl
    | some m => simp [prevTimeAmended, habs m rfl]
  have hna : newTimeAmended cur p = (t : WithTop Nat) := by
    unfold newTimeAmended
    rw [hcur]
    have ht : t ≠ 0 := by omega
    simp [ht]
  rw [hpa, hna]
  exact_mod_cast hlt

/-- C4 witness: a file absent from the (null) previous snapshot with current
timestamp above the start time is reported as changed. -/
theorem C4_change_detector_witness :
    "/proj/c.txt" ∈ getChangedFiles [("/proj/c.txt", 9)] none 3 :=
  C4_change_detector.2 [("/proj/c.txt", 9)] none 3 "/proj/c.txt" 9
    (fun m hm => by cases hm) (by decide) (by norm_num)

/-- C4 counterexample to the claim as stated: with `startTime = 10`, a file
whose previous snapshot entry is `0` and whose current timestamp is `5`
satisfies the claim's `prevTime < newTime` (`0 < 5`), yet the code reports
nothing changed — the falsy stored entry is coalesced to the start time. -/
theorem C4_counterexample :
    getChangedFiles [("/proj/a.txt", 5)] (some [("/proj/a.txt", 0)]) 10 = [] ∧
    changedSinceClaim [("/proj/a.txt", 5)] (some [("/proj/a.txt", 0)]) 10 = ["/proj/a.txt"] :=
  ⟨by decide, by decide⟩

/-- C5: whenever the task runs, its input is the changed-dependency subset
exactly when `changedFilesOnly` is set and some dependency changed, and
the full resolved dependency file set otherwise; with two dependency files
of which one changed and `changedFilesOnly = true`, the task receives
exactly the changed file. -/
theorem C5_task_input :
    (∀ st inp, (runCycle st inp).taskRan = true →
      (runCycle st inp).taskInput =
        some (if inp.changedFilesOnly && (runCycle st inp).taskFileHasChanged
              then (runCycle st inp).changedDependencies
              else (runCycle st inp).dependencyFiles)) ∧
    ((runCycle steadyState changedOnlyInput).valid = true ∧
     changedOnlyInput.changedFilesOnly = true ∧
     (runCycle steadyState changedOnlyInput).dependencyFiles = ["/proj/a.txt", "/proj/b.txt"] ∧
     (runCycle steadyState changedOnlyInput).changedDependencies = ["/proj/a.txt"] ∧
     (runCycle steadyState changedOnlyInput).taskRan = true ∧
     (runCycle steadyState changedOnlyInput).taskInput = some ["/proj/a.txt"]) := by
  constructor
  · intro st inp hr
    by_cases hc : (inp.source.isSome && (inp.taskState == some true)) = true
    · simp only [runCycle, hc, if_true] at hr ⊢
      simp only [hr, if_true]
      rw [Bool.and_comm]
    · simp only [runCycle, hc, if_false] at hr
      cases hr
  · exact ⟨by decide, by decide, by decide, by decide, by decide, by decide⟩

/-- C5 witness: the input rule instantiated at the changed-files-only
cycle. -/
theorem C5_task_input_witness :
    (runCycle steadyState changedOnlyInput).taskInput =
      some (if changedOnlyInput.changedFilesOnly
                && (runCycle steadyState changedOnlyInput).taskFileHasChanged
            then (runCycle steadyState changedOnlyInput).changedDependencies
            else (runCycle steadyState changedOnlyInput).dependencyFiles) :=
  C5_task_input.1 steadyState changedOnlyInput (by decide)

/-- C6: the claim says `noPreviousTimestamps` is true when the prior
snapshot is present but empty.  `prevTimestamps` is a JS `Map`, which has
no `length` property, so `this.prevTimestamps.length < 1` compares
`undefined` with `1` and is always false: for an empty-but-present
snapshot the code computes `noPreviousTimestamps = false`. -/
theorem C6_empty_snapshot_eval :
    noPreviousTimestamps none = true ∧
    noPreviousTimestamps (some []) = false ∧
    mapLength [] = JSVal.undefined ∧
    JSVal.ltNat JSVal.undefined 1 = false :=
  ⟨by decide, by decide, by decide, by decide⟩

/-- C7 (amended): a call registering a single directory preserves the
no-nested-entries invariant (candidates are only checked against the
registry as of call entry, so within one call a later candidate is not
checked against earlier additions); registering `/a` then `/a/b`, or
`/a/b` then `/a`, in successive calls leaves the registry `{/a}`, and
repeating a call with the same directory list leaves the registry
unchanged on these registries. -/
theorem C7_registry_invariant (R : List Dir) (d : Dir) (h : NoNesting R) :
    NoNesting (watchDependencyDirectories R [d]) ∧
    watchDependencyDirectories (watchDependencyDirectories [] [["a"]]) [["a", "b"]] = [["a"]] ∧
    watchDependencyDirectories (watchDependencyDirectories [] [["a", "b"]]) [["a"]] = [["a"]] ∧
    watchDependencyDirectories [["a"]] [["a"], ["a", "b"]] = [["a"]] ∧
    watchDependencyDirectories [["a"], ["a", "b"]] [["a"], ["a", "b"]]
        = [["a"], ["a", "b"]] :=
  ⟨noNesting_preserved R d h, by decide, by decide, by decide, by decide⟩

/-- C7 witness: invariant preservation applied to a concrete registry and
directory. -/
theorem C7_registry_invariant_witness :
    NoNesting [["a"]] ∧ NoNesting (watchDependencyDirectories [["a"]] [["a", "b"]]) :=
  ⟨by decide, (C7_registry_invariant [["a"]] ["a", "b"] (by decide)).1⟩

/-- C7 counterexample to the claim as stated: starting from the empty
registry (which satisfies the invariant), a single call registering
`/a` and then `/a/b` in the same directory list leaves both in the
registry, one a strict subdirectory of the other. -/
theorem C7_counterexample :
    NoNesting ([] : List Dir) ∧
    watchDependencyDirectories [] [["a"], ["a", "b"]] = [["a"], ["a", "b"]] ∧
    isDirectorySubdirectory ["a", "b"] ["a"] = true ∧
    ¬ NoNesting [["a"], ["a", "b"]] :=
  ⟨by decide, by decide, by decide, by decide⟩

/-- C8 (amended): `getDurationString` renders by the claim's decomposition
and unit rules; the listed values map to `""`, `"999ms"`, `"1s"`,
`"1m 1s"` (61000 ms is one minute and one second) and `"1h 1m 1s"`. -/
theorem C8_duration_rendering :
    (∀ n : Nat, getDurationString n = durationRender n) ∧
    getDurationString 0 = "" ∧
    getDurationString 999 = "999ms" ∧
    getDurationString 1000 = "1s" ∧
    getDurationString 61000 = "1m 1s" ∧
    getDurationString 3661000 = "1h 1m 1s" := by
  refine ⟨getDurationString_eq_render, ?_, ?_, ?_, ?_, ?_⟩ <;>
    rw [getDurationString_eq_render] <;> decide

/-- C8 counterexample to the claim as stated: 61000 ms renders as
`"1m 1s"`, not the claimed `"1m 0s"`. -/
theorem C8_counterexample :
    getDurationString 61000 = "1m 1s" ∧ "1m 1s" ≠ "1m 0s" := by
  constructor
  · rw [getDurationString_eq_render]; decide
  · decide

/-- C9 (amended): `getDurationString 3600500` returns `"1h 0m 0s500ms"`: the
milliseconds component is rendered whenever the minutes value is zero and
ms is nonzero, even when an hours (and hence minutes) component is shown,
with no separating space when seconds is zero; ms is dropped only when the
minutes value is nonzero, as at 3660500. -/
theorem C9_ms_rendered_when_minutes_zero :
    getDurationString 3600500 = "1h 0m 0s500ms" ∧
    getDurationString 3660500 = "1h 1m 0s" := by
  constructor <;> (rw [getDurationString_eq_render]; decide)

/-- C9 counterexample to the claim as stated: `getDurationString 3600500`
is `"1h 0m 0s500ms"`, which differs from the claimed `"1h 0m 0s"`. -/
theorem C9_counterexample :
    getDurationString 3600500 = "1h 0m 0s500ms" ∧ "1h 0m 0s500ms" ≠ "1h 0m 0s" := by
  constructor
  · rw [getDurationString_eq_render]; decide
  · decide

/-- C10: a previous-snapshot entry with a falsy (zero) timestamp is treated
exactly like a never-observed file: the file is reported as changed iff
its (truthy) current timestamp is strictly greater than the plugin's
construction time, and its membership in the changed set coincides with
the null-snapshot (first run) case. -/
theorem C10_falsy_prev_entry (fileTimestamps prevSnapshot : Snapshot) (startTime : Nat)
    (p : String) (t : Nat)
    (hprev : jsGet prevSnapshot p = some 0)
    (hcur : jsGet fileTimestamps p = some t) (ht : t ≠ 0) :
    (p ∈ getChangedFiles fileTimestamps (some prevSnapshot) startTime ↔ startTime < t) ∧
    (p ∈ getChangedFiles fileTimestamps (some prevSnapshot) startTime ↔
      p ∈ getChangedFiles fileTimestamps none startTime) := by
  have hkey := jsGet_mem hcur
  have hna : newTimeAmended fileTimestamps p = (t : WithTop Nat) := by
    unfold newTimeAmended
    rw [hcur]
    simp [ht]
  have hpa : prevTimeAmended (some prevSnapshot) startTime p = startTime := by
    simp [prevTimeAmended, hprev]
  constructor
  · rw [mem_getChangedFiles, hpa, hna]
    simp [hkey, WithTop.coe_lt_coe]
  · rw [mem_getChangedFiles, mem_getChangedFiles, hpa]
    simp [prevTimeAmended]

/-- C10 witness: concrete instance with a zero previous entry, start time 3
and current timestamp 9. -/
theorem C10_falsy_prev_entry_witness :
    (("/proj/a.txt" ∈ getChangedFiles [("/proj/a.txt", 9)] (some [("/proj/a.txt", 0)]) 3) ↔
      3 < 9) ∧
    (("/proj/a.txt" ∈ getChangedFiles [("/proj/a.txt", 9)] (some [("/proj/a.txt", 0)]) 3) ↔
      ("/proj/a.txt" ∈ getChangedFiles [("/proj/a.txt", 9)] none 3)) :=
  C10_falsy_prev_entry [("/proj/a.txt", 9)] [("/proj/a.txt", 0)] 3 "/proj/a.txt" 9
    (by decide) (by decide) (by decide)

end StreamingTaskPlugin
